import Mathlib

set_option maxRecDepth 4000

/-!
Shallow embedding of the k8s-pilot core: the policy gate, the plan
generation pipeline (free-text scanner and execution), the diagnostics
and scoring engine, the plugin registry, and the mock AI provider.
Each definition is translated from the corresponding Go function;
Go strings are modelled as Lean strings (the embedded inputs are ASCII,
where Go byte indexing and Lean character indexing agree).
-/

/-- Go standard library strings.Contains: substring test. A suffix scan:
some suffix of s starts with sub. -/
def infixAux (needle : List Char) : List Char → Bool
  | [] => needle.isEmpty
  | c :: rest => needle.isPrefixOf (c :: rest) || infixAux needle rest

/-- strings.Contains(s, sub). -/
def strContains (s sub : String) : Bool :=
  infixAux sub.toList s.toList

/-- Whitespace characters trimmed by Go strings.TrimSpace (ASCII range):
space, tab, newline, carriage return, vertical tab, form feed. -/
def isSpaceChar (c : Char) : Bool :=
  c == ' ' || c == '\t' || c == '\n' || c == '\r' ||
    c == Char.ofNat 11 || c == Char.ofNat 12

/-- Go strings.TrimSpace: drop leading and trailing whitespace. Written as a
structural recursion over the character list so it evaluates by decide. -/
def goTrim (s : String) : String :=
  ⟨((s.data.dropWhile isSpaceChar).reverse.dropWhile isSpaceChar).reverse⟩

/-- Go strings.HasPrefix. -/
def goStartsWith (s pre : String) : Bool :=
  pre.data.isPrefixOf s.data

/-- Splitting on one separator character, accumulating the current field in
reverse; mirrors Go strings.Split for a one-character separator. -/
def splitOnCharAux (sep : Char) : List Char → List Char → List (List Char)
  | [], cur => [cur.reverse]
  | c :: rest, cur =>
    if c == sep then cur.reverse :: splitOnCharAux sep rest []
    else splitOnCharAux sep rest (c :: cur)

/-- Go strings.Split(s, sep) for a one-character separator (the embedded
code only splits on a newline and on a pipe character). -/
def goSplitOnChar (sep : Char) (s : String) : List String :=
  (splitOnCharAux sep s.data []).map (fun l => ⟨l⟩)

/-- Go standard library strings.TrimPrefix: drop pre when it is a leading
part of s, else return s unchanged. -/
def trimPre (s pre : String) : String :=
  if goStartsWith s pre then ⟨s.data.drop pre.data.length⟩ else s

namespace policy

/-- Severity constants of the policy package (Go type Severity string). -/
def SeverityHigh : String := "high"

def SeverityMedium : String := "medium"

def SeverityLow : String := "low"

/-- Violation from the policy package. -/
structure Violation where
  policy : String
  severity : String
  message : String
  deriving DecidableEq, Repr

/-- ValidationResult from the policy package. A nil Go slice and an empty
slice are both modelled as the empty list. -/
structure ValidationResult where
  allowed : Bool
  violations : List Violation
  warnings : List String
  deriving DecidableEq, Repr

/-- Validator from the policy package. -/
structure Validator where
  enabled : Bool
  deriving DecidableEq, Repr

/-- The contains helper of the policy package, translated from its literal
recursion over the string:
len(s) >= len(substr) AND (s == substr OR (len(s) > len(substr) AND
(s[:len(substr)] == substr OR contains(s[1:], substr)))).
Despite its own doc comment, this recursion compares characters exactly,
so the scan is case-sensitive. -/
def containsAux : List Char → List Char → Bool
  | [], substr => substr.isEmpty
  | c :: rest, substr =>
    decide (substr.length ≤ rest.length + 1) &&
      ((c :: rest) == substr ||
        (decide (substr.length < rest.length + 1) &&
          (((c :: rest).take substr.length) == substr || containsAux rest substr)))

/-- contains(s, substr) of the policy package. -/
def contains (s substr : String) : Bool :=
  containsAux s.toList substr.toList

/-- The dangerous-operations warning loop of ValidateCommand: for each op in
delete, drain, cordon present in the command, append a warning. -/
def dangerousWarnings (command : String) : List String :=
  (["delete", "drain", "cordon"]).foldl
    (fun ws op =>
      if contains command op then
        ws ++ ["Potentially dangerous operation detected: " ++ op]
      else ws) []

/-- ValidateCommand of the policy package. The Go function threads mutable
allowed / violations / warnings fields; here the final value of each field
is written directly: allowed starts true and is set false by the privileged
check and by the root-user check, so its final value is the conjunction of
their negations, and the appends are laid out in execution order. The
always-nil error return is dropped. -/
def ValidateCommand (v : Validator) (command : String) : ValidationResult :=
  if !v.enabled then
    { allowed := true, violations := [], warnings := [] }
  else
    { allowed := !(contains command "privileged" || contains command "hostNetwork") &&
        !(contains command "runAsUser: 0")
      violations :=
        (if contains command "privileged" || contains command "hostNetwork" then
          [{ policy := "no-privileged-containers", severity := SeverityHigh,
             message := "Privileged containers are not allowed" }]
         else []) ++
        (if contains command "runAsUser: 0" then
          [{ policy := "no-root-containers", severity := SeverityHigh,
             message := "Running containers as root is not allowed" }]
         else [])
      warnings :=
        dangerousWarnings command ++
        (if contains command "limits" = false && contains command "create" then
          ["No resource limits specified - consider adding limits"]
         else []) }

/-- A validator with policy enforcement enabled. -/
def enabledValidator : Validator := { enabled := true }

end policy

/-- C5: for every ValidationResult returned by ValidateCommand, with
enforcement enabled or disabled, allowed is false exactly when the
violations list is non-empty. -/
theorem validate_allowed_iff_no_violations (v : policy.Validator) (cmd : String) :
    ((policy.ValidateCommand v cmd).allowed = false) ↔
      (policy.ValidateCommand v cmd).violations ≠ [] := by
  cases v with
  | mk enabled =>
    cases enabled with
    | false => simp [policy.ValidateCommand]
    | true =>
      cases hp : policy.contains cmd "privileged" <;>
        cases hh : policy.contains cmd "hostNetwork" <;>
          cases hr : policy.contains cmd "runAsUser: 0" <;>
            simp [policy.ValidateCommand, hp, hh, hr]

/-- C2 evidence: the policy scan is case-sensitive, not case-insensitive.
The lower-case command "privileged" is denied with a violation, while its
upper-cased variant "PRIVILEGED" is allowed with no violations and no
warnings, so validating a casing variant does not give the same result. -/
theorem validate_case_sensitivity_evidence :
    (policy.ValidateCommand policy.enabledValidator "privileged").allowed = false ∧
    (policy.ValidateCommand policy.enabledValidator "PRIVILEGED").allowed = true ∧
    (policy.ValidateCommand policy.enabledValidator "PRIVILEGED").violations = [] ∧
    (policy.ValidateCommand policy.enabledValidator "PRIVILEGED").warnings = [] := by
  refine ⟨by decide, by decide, by decide, by decide⟩

/-- C6: with enforcement enabled, a command containing "privileged" is
denied with a high-severity violation, and a command containing "delete"
but none of the violation markers (privileged, hostNetwork, runAsUser: 0)
is allowed with at least one warning. -/
theorem validate_privileged_and_delete (cmd : String) :
    (policy.contains cmd "privileged" = true →
      (policy.ValidateCommand policy.enabledValidator cmd).allowed = false ∧
      ∃ v, v ∈ (policy.ValidateCommand policy.enabledValidator cmd).violations ∧
        v.severity = policy.SeverityHigh) ∧
    (policy.contains cmd "delete" = true →
      policy.contains cmd "privileged" = false →
      policy.contains cmd "hostNetwork" = false →
      policy.contains cmd "runAsUser: 0" = false →
      (policy.ValidateCommand policy.enabledValidator cmd).allowed = true ∧
      (policy.ValidateCommand policy.enabledValidator cmd).warnings ≠ []) := by
  constructor
  · intro hp
    cases hr : policy.contains cmd "runAsUser: 0" <;>
      simp [policy.ValidateCommand, policy.enabledValidator, hp, hr]
  · intro hd hp hh hr
    cases hdr : policy.contains cmd "drain" <;>
      cases hco : policy.contains cmd "cordon" <;>
        cases hli : policy.contains cmd "limits" <;>
          cases hcr : policy.contains cmd "create" <;>
            simp [policy.ValidateCommand, policy.enabledValidator,
              policy.dangerousWarnings, hd, hp, hh, hr, hdr, hco, hli, hcr]

/-- C6 witness: the two guarantees evaluated at concrete commands. -/
theorem validate_privileged_and_delete_witness :
    ((policy.ValidateCommand policy.enabledValidator "run privileged pod").allowed = false ∧
      ∃ v, v ∈ (policy.ValidateCommand policy.enabledValidator "run privileged pod").violations ∧
        v.severity = policy.SeverityHigh) ∧
    ((policy.ValidateCommand policy.enabledValidator "kubectl delete pod x").allowed = true ∧
      (policy.ValidateCommand policy.enabledValidator "kubectl delete pod x").warnings ≠ []) :=
  ⟨(validate_privileged_and_delete "run privileged pod").1 (by decide),
   (validate_privileged_and_delete "kubectl delete pod x").2
     (by decide) (by decide) (by decide) (by decide)⟩

namespace plan

/-- Command from the plan package. -/
structure Command where
  command : String
  description : String
  safe : Bool
  dryRun : Bool
  deriving DecidableEq, Repr

/-- Plan from the plan package. -/
structure Plan where
  summary : String
  commands : List Command
  warnings : List String
  requiresAuth : Bool
  dryRun : Bool
  deriving DecidableEq, Repr

/-- Result of Plan.Execute. -/
structure Result where
  executedCommands : List String
  errors : List String
  deriving DecidableEq, Repr

/-- Mutable scanner state of parseResponse: the summary, the accumulated
commands and warnings, and the inCommands / inWarnings flags. -/
structure ParseState where
  summary : String
  commands : List Command
  warnings : List String
  inCommands : Bool
  inWarnings : Bool
  deriving DecidableEq, Repr

/-- The command branch of the parseResponse loop body. Go precedence makes
the guard (inCommands AND HasPrefix(line, "-")) OR HasPrefix(line, "kubectl"),
so a kubectl-prefixed line is examined in every state. The line is split on
the pipe character; with fewer than two fields nothing is appended; the
optional third field marks the command unsafe when it contains "false". -/
def tryCommand (dryRun : Bool) (st : ParseState) (line : String) : ParseState :=
  if (st.inCommands && goStartsWith line "-") || goStartsWith line "kubectl" then
    match goSplitOnChar '|' line with
    | p0 :: p1 :: rest =>
      { st with commands := st.commands ++
          [{ command := goTrim (trimPre p0 "-")
             description := goTrim p1
             safe := match rest with
               | p2 :: _ => !(strContains p2 "false")
               | [] => true
             dryRun := dryRun }] }
    | _ => st
  else st

/-- The warning branch of the parseResponse loop body: while inWarnings, a
dash-prefixed line is trimmed of the marker and appended unless empty. -/
def tryWarning (st : ParseState) (line : String) : ParseState :=
  if st.inWarnings && goStartsWith line "-" then
    if goTrim (trimPre line "-") != "" then
      { st with warnings := st.warnings ++ [goTrim (trimPre line "-")] }
    else st
  else st

/-- One iteration of the parseResponse loop over a raw line: trim, handle
the SUMMARY: / COMMANDS: / WARNINGS: markers (which continue the loop), and
otherwise run the command branch then the warning branch. -/
def parseLine (dryRun : Bool) (st : ParseState) (rawLine : String) : ParseState :=
  if goStartsWith (goTrim rawLine) "SUMMARY:" then
    { st with summary := goTrim (trimPre (goTrim rawLine) "SUMMARY:") }
  else if goStartsWith (goTrim rawLine) "COMMANDS:" then
    { st with inCommands := true, inWarnings := false }
  else if goStartsWith (goTrim rawLine) "WARNINGS:" then
    { st with inWarnings := true, inCommands := false }
  else
    tryWarning (tryCommand dryRun st (goTrim rawLine)) (goTrim rawLine)

/-- Initial scanner state of parseResponse. -/
def initState (originalQuery : String) : ParseState :=
  { summary := "Execution plan for: " ++ originalQuery
    commands := []
    warnings := []
    inCommands := false
    inWarnings := false }

/-- The scanning pass of parseResponse: split the response on newlines and
fold the loop body over the lines. -/
def parseScan (dryRun : Bool) (response originalQuery : String) : ParseState :=
  (goSplitOnChar '\n' response).foldl (parseLine dryRun) (initState originalQuery)

/-- The placeholder command synthesized when no commands were parsed. -/
def fallbackCommand (dryRun : Bool) (originalQuery : String) : Command :=
  { command := "# Generated from: " ++ originalQuery
    description := "See AI response for details"
    safe := true
    dryRun := dryRun }

/-- parseResponse of the plan package: run the scanner, then substitute the
single fallback command when zero commands were parsed. RequiresAuth is
never set. Plan.DryRun is the dryRun mode of the planner (Generate also
reassigns it to the same value). -/
def parseResponse (dryRun : Bool) (response originalQuery : String) : Plan :=
  { summary := (parseScan dryRun response originalQuery).summary
    commands :=
      if (parseScan dryRun response originalQuery).commands.length = 0 then
        [fallbackCommand dryRun originalQuery]
      else (parseScan dryRun response originalQuery).commands
    warnings := (parseScan dryRun response originalQuery).warnings
    requiresAuth := false
    dryRun := dryRun }

/-- Execute of the plan package: iterate commands in order; when the plan is
in dry-run mode and the command is not, record a DRY-RUN preview entry,
otherwise record the command on the execution path (actual invocation is a
stub that records the raw command). The error return is always nil. -/
def Execute (p : Plan) : Result :=
  { executedCommands := p.commands.map (fun cmd =>
      if p.dryRun && !cmd.dryRun then "[DRY-RUN] " ++ cmd.command else cmd.command)
    errors := [] }

/-- Classification of one trimmed line as command-producing, following the
branch structure of parseLine: marker lines are never commands; otherwise
the line must begin with a dash while inCommands, or begin with kubectl in
any state, and must split on the pipe character into at least two fields. -/
def isParsedAsCommand (inCmds : Bool) (rawLine : String) : Bool :=
  if goStartsWith (goTrim rawLine) "SUMMARY:" then false
  else if goStartsWith (goTrim rawLine) "COMMANDS:" then false
  else if goStartsWith (goTrim rawLine) "WARNINGS:" then false
  else
    ((inCmds && goStartsWith (goTrim rawLine) "-") ||
        goStartsWith (goTrim rawLine) "kubectl") &&
      decide (2 ≤ (goSplitOnChar '|' (goTrim rawLine)).length)

/-- The inCommands flag after one line: COMMANDS: enters the state,
WARNINGS: leaves it, every other line preserves it. -/
def cmdMarkerState (inCmds : Bool) (rawLine : String) : Bool :=
  if goStartsWith (goTrim rawLine) "SUMMARY:" then inCmds
  else if goStartsWith (goTrim rawLine) "COMMANDS:" then true
  else if goStartsWith (goTrim rawLine) "WARNINGS:" then false
  else inCmds

/-- Line-by-line command count: thread the inCommands flag and add one for
each line classified as command-producing. -/
def cmdCountStep (acc : Bool × Nat) (line : String) : Bool × Nat :=
  (cmdMarkerState acc.1 line, acc.2 + (isParsedAsCommand acc.1 line).toNat)

/-- Number of lines of the response that the scanner parses as commands. -/
def countParsedCommands (response : String) : Nat :=
  ((goSplitOnChar '\n' response).foldl cmdCountStep (false, 0)).2

end plan

/-- The command branch never changes the scanner flags or warnings. -/
theorem tryCommand_flags (d : Bool) (st : plan.ParseState) (l : String) :
    (plan.tryCommand d st l).inCommands = st.inCommands ∧
    (plan.tryCommand d st l).inWarnings = st.inWarnings := by
  unfold plan.tryCommand
  split
  · split <;> exact ⟨rfl, rfl⟩
  · exact ⟨rfl, rfl⟩

/-- The warning branch never changes the commands or the scanner flags. -/
theorem tryWarning_commands (st : plan.ParseState) (l : String) :
    (plan.tryWarning st l).commands = st.commands ∧
    (plan.tryWarning st l).inCommands = st.inCommands := by
  unfold plan.tryWarning
  split
  · split <;> exact ⟨rfl, rfl⟩
  · exact ⟨rfl, rfl⟩

/-- The command branch appends exactly one command when the guard holds and
the line splits into at least two fields, and nothing otherwise. -/
theorem tryCommand_length (d : Bool) (st : plan.ParseState) (l : String) :
    (plan.tryCommand d st l).commands.length = st.commands.length +
      (((st.inCommands && goStartsWith l "-") || goStartsWith l "kubectl") &&
        decide (2 ≤ (goSplitOnChar '|' l).length)).toNat := by
  unfold plan.tryCommand
  cases hg : ((st.inCommands && goStartsWith l "-") || goStartsWith l "kubectl") with
  | false => simp [hg]
  | true =>
    simp only [hg, if_true]
    rcases hsp : goSplitOnChar '|' l with _ | ⟨p0, _ | ⟨p1, rest⟩⟩ <;>
      simp [hsp]

/-- One scanner step tracks the marker state machine. -/
theorem parseLine_inCommands (d : Bool) (st : plan.ParseState) (l : String) :
    (plan.parseLine d st l).inCommands = plan.cmdMarkerState st.inCommands l := by
  unfold plan.parseLine plan.cmdMarkerState
  split
  · rfl
  · split
    · rfl
    · split
      · rfl
      · exact ((tryWarning_commands _ _).2).trans (tryCommand_flags d st (goTrim l)).1

/-- One scanner step adds exactly the commands the line classification
predicts. -/
theorem parseLine_length (d : Bool) (st : plan.ParseState) (l : String) :
    (plan.parseLine d st l).commands.length =
      st.commands.length + (plan.isParsedAsCommand st.inCommands l).toNat := by
  unfold plan.parseLine plan.isParsedAsCommand
  split
  · simp
  · split
    · simp
    · split
      · simp
      · rw [(tryWarning_commands _ _).1, tryCommand_length]

/-- The scanner fold agrees with the line-by-line command count from any
starting state. -/
theorem scan_count (d : Bool) (lines : List String) :
    ∀ st : plan.ParseState,
      ((lines.foldl (plan.parseLine d) st).inCommands =
        (lines.foldl plan.cmdCountStep (st.inCommands, st.commands.length)).1) ∧
      ((lines.foldl (plan.parseLine d) st).commands.length =
        (lines.foldl plan.cmdCountStep (st.inCommands, st.commands.length)).2) := by
  induction lines with
  | nil => intro st; exact ⟨rfl, rfl⟩
  | cons l ls ih =>
    intro st
    have h := ih (plan.parseLine d st l)
    rw [List.foldl_cons, List.foldl_cons]
    have hstep : ((plan.parseLine d st l).inCommands,
        (plan.parseLine d st l).commands.length) =
        plan.cmdCountStep (st.inCommands, st.commands.length) l := by
      rw [plan.cmdCountStep, parseLine_inCommands, parseLine_length]
    rw [← hstep]
    exact h

/-- C4 amended: the scanner parses exactly the lines classified as
command-producing (a dash line while inCommands, or a kubectl-prefixed line
in any state, each with at least two pipe-separated fields), and the plan
carries that many commands unless the count is zero, in which case the
single fallback command is substituted. -/
theorem parse_command_count (d : Bool) (r q : String) :
    (plan.parseScan d r q).commands.length = plan.countParsedCommands r ∧
    (plan.parseResponse d r q).commands.length =
      (if plan.countParsedCommands r = 0 then 1 else plan.countParsedCommands r) := by
  have h := (scan_count d (goSplitOnChar '\n' r) (plan.initState q)).2
  have hmain : (plan.parseScan d r q).commands.length = plan.countParsedCommands r := by
    unfold plan.parseScan plan.countParsedCommands
    simpa [plan.initState] using h
  refine ⟨hmain, ?_⟩
  unfold plan.parseResponse
  by_cases h0 : plan.countParsedCommands r = 0 <;>
    simp [hmain, h0]

/-- C4 counterexample input: a kubectl-prefixed line with a pipe separator
before the COMMANDS: block, then one well-formed dash line inside it. -/
def kubectlOutsideBlock : String :=
  "kubectl get pods | list pods\nCOMMANDS:\n- kubectl get svc | list services"

/-- C4 counterexample: the claim predicts exactly one command (the single
well-formed dash line inside the COMMANDS: block), but the parser also
parses the kubectl-prefixed line that lies before the block, producing two
commands. -/
theorem parse_kubectl_outside_block :
    (plan.parseResponse false kubectlOutsideBlock "q").commands =
      [{ command := "kubectl get pods", description := "list pods",
         safe := true, dryRun := false },
       { command := "kubectl get svc", description := "list services",
         safe := true, dryRun := false }] := by decide

/-- C7: when the scanner extracts zero commands, the plan carries exactly
the one synthesized placeholder, which is marked safe. -/
theorem fallback_single_safe_command (d : Bool) (r q : String)
    (h : (plan.parseScan d r q).commands = []) :
    (plan.parseResponse d r q).commands = [plan.fallbackCommand d q] ∧
    (plan.parseResponse d r q).commands.length = 1 ∧
    ∀ c ∈ (plan.parseResponse d r q).commands, c.safe = true := by
  refine ⟨?_, ?_, ?_⟩ <;> simp [plan.parseResponse, h, plan.fallbackCommand]

/-- C7 witness: a response with no command lines yields the one safe
placeholder. -/
theorem fallback_single_safe_command_witness :
    (plan.parseResponse false "hello" "show pods").commands =
      [plan.fallbackCommand false "show pods"] ∧
    (plan.parseResponse false "hello" "show pods").commands.length = 1 ∧
    ∀ c ∈ (plan.parseResponse false "hello" "show pods").commands, c.safe = true :=
  fallback_single_safe_command false "hello" "show pods" (by decide)

/-- C3 failing input: a plan produced by the parser in dry-run mode from a
response with one well-formed command line. -/
def dryRunPlanExample : plan.Plan :=
  plan.parseResponse true "COMMANDS:\n- kubectl delete pod x | remove pod" "restart"

/-- C3 evidence: in dry-run mode every parsed command inherits dryRun = true,
so the guard (plan dry-run AND command not dry-run) of Execute is false and
every command is recorded on the execution path as the raw command, not as a
DRY-RUN preview entry. -/
theorem execute_dry_run_evidence :
    dryRunPlanExample.dryRun = true ∧
    dryRunPlanExample.commands.all (fun c => c.dryRun) = true ∧
    plan.Execute dryRunPlanExample =
      { executedCommands := ["kubectl delete pod x"], errors := [] } ∧
    ((plan.Execute dryRunPlanExample).executedCommands.any
      (fun s => goStartsWith s "[DRY-RUN]")) = false := by
  refine ⟨by decide, by decide, by decide, by decide⟩

namespace ai

/-- Options from the ai package. -/
structure Options where
  temperature : Float
  maxTokens : Int
  model : String
  systemPrompt : String
  stopSequences : List String

/-- Response from the ai package. -/
structure Response where
  content : String
  model : String
  tokensUsed : Nat
  finishReason : String
  deriving DecidableEq, Repr

/-- DefaultOptions of the ai package. -/
def DefaultOptions : Options :=
  { temperature := 0.7, maxTokens := 2000, model := "", systemPrompt := ""
    stopSequences := [] }

/-- Go strings.ToLower, character by character (the embedded prompts are
ASCII). -/
def goToLower (s : String) : String :=
  ⟨s.data.map Char.toLower⟩

/-- The fixed restart response of generateMockResponse. -/
def restartResponse : String :=
  "To restart pods, I recommend using a rolling restart approach:\n\n1. kubectl rollout restart deployment <deployment-name> -n <namespace>\n\nThis will gracefully restart all pods in the deployment without downtime.\n\nAlternative: Delete specific pods to trigger recreation:\nkubectl delete pod <pod-name> -n <namespace>\n\nThe scheduler will automatically create new pods to replace them."

/-- The fixed diagnostics response of generateMockResponse. -/
def diagnoseResponse : String :=
  "Based on the diagnostics:\n\nIssue: CrashLoopBackOff detected\nRoot Cause: Application is likely failing at startup due to:\n  - Missing environment variables\n  - Database connection failure\n  - Invalid configuration\n\nRecommended Actions:\n1. Check logs: kubectl logs <pod-name> -n <namespace>\n2. Describe pod: kubectl describe pod <pod-name> -n <namespace>\n3. Verify configmaps and secrets are mounted correctly\n4. Check resource limits - pod may be OOMKilled"

/-- The fixed scaling response of generateMockResponse. -/
def scaleResponse : String :=
  "To scale the deployment:\n\nkubectl scale deployment <deployment-name> --replicas=<count> -n <namespace>\n\nThis will adjust the number of pod replicas to the specified count.\nUse \x27kubectl get deployment\x27 to verify the scaling operation."

/-- generateMockResponse of the mock provider: keyword triggers on the
lower-cased prompt, falling back to an echo of the prompt. -/
def generateMockResponse (prompt : String) : String :=
  if strContains (goToLower prompt) "restart" && strContains (goToLower prompt) "pod" then
    restartResponse
  else if strContains (goToLower prompt) "diagnose" ||
      strContains (goToLower prompt) "crashloop" then
    diagnoseResponse
  else if strContains (goToLower prompt) "scale" then
    scaleResponse
  else
    "Mock AI response for prompt: " ++ prompt

/-- MockProvider.Generate: always succeeds with the mock content, the fixed
model name, a token count of the content byte length divided by four, and
finish reason stop. The options are ignored. -/
def MockGenerate (prompt : String) (_opts : Options) : Except String Response :=
  Except.ok
    { content := generateMockResponse prompt
      model := "mock-v1"
      tokensUsed := (generateMockResponse prompt).utf8ByteSize / 4
      finishReason := "stop" }

end ai

namespace plan

/-- The fixed rule preamble of buildPrompt. -/
def systemPromptText : String :=
  "You are a Kubernetes expert assistant. Your task is to translate natural language queries into safe kubectl commands.\n\nRules:\n1. Always prefer dry-run commands when possible\n2. Never suggest commands that delete critical resources without warning\n3. Include explanations for each command\n4. Warn about potentially dangerous operations\n5. Use the namespace provided in context when applicable\n6. Suggest RBAC-safe alternatives when possible\n\nFormat your response as:\nSUMMARY: <brief summary>\nCOMMANDS:\n- <kubectl command> | <description> | <safe: true/false>\n\nWARNINGS:\n- <warning if any>\n"

/-- buildPrompt of the plan package: the rule preamble plus the per-request
section carrying the effective namespace and the literal query. -/
def buildPrompt (ns query : String) : String :=
  systemPromptText ++ "\n\n" ++ "Namespace: " ++ (if ns = "" then "default" else ns) ++
    "\nQuery: " ++ query ++ "\n\nGenerate a safe execution plan for this query."

/-- Planner.Generate: build the prompt, call the provider, propagate its
error wrapped with call context, and otherwise parse the response content.
The provider is a parameter standing for the ai.Provider interface. -/
def Generate (gen : String → ai.Options → Except String ai.Response)
    (dryRun : Bool) (ns query : String) : Except String Plan :=
  match gen (buildPrompt ns query) ai.DefaultOptions with
  | Except.error e => Except.error ("failed to generate plan: " ++ e)
  | Except.ok response => Except.ok (parseResponse dryRun response.content query)

end plan

namespace diagnose

/-- Severity constants of the diagnose package. -/
def SeverityCritical : String := "critical"

def SeverityHigh : String := "high"

def SeverityMedium : String := "medium"

def SeverityLow : String := "low"

/-- Issue from the diagnose package. The Details map of untyped values is
never populated by the embedded paths and is not modelled. -/
structure Issue where
  severity : String
  type : String
  resource : String
  description : String
  deriving DecidableEq, Repr

/-- Remediation from the diagnose package. -/
structure Remediation where
  title : String
  description : String
  command : String
  confidence : String
  safe : Bool
  deriving DecidableEq, Repr

/-- Report from the diagnose package. HealthScore is a Go int, modelled as
an integer so that negative values are representable. -/
structure Report where
  summary : String
  issues : List Issue
  remediations : List Remediation
  healthScore : Int
  deriving DecidableEq, Repr

/-- A waiting container state (corev1 ContainerStateWaiting). -/
structure WaitingState where
  reason : String
  message : String
  deriving DecidableEq, Repr

/-- A container state: only the waiting branch is inspected by diagnosePod. -/
structure ContainerState where
  waiting : Option WaitingState
  deriving DecidableEq, Repr

/-- A container status as read by diagnosePod: name, state, restart count
(a Go int32, modelled as an integer). -/
structure ContainerStatus where
  name : String
  state : ContainerState
  restartCount : Int
  deriving DecidableEq, Repr

/-- The pod status fields read by diagnosePod. -/
structure PodStatus where
  phase : String
  containerStatuses : List ContainerStatus
  deriving DecidableEq, Repr

/-- PodInfo from the k8s package as consumed by diagnoseAllPods. -/
structure PodInfo where
  name : String
  phase : String
  ready : Bool
  restarts : Int
  deriving DecidableEq, Repr

/-- generateRemediations of the diagnose package: build a prompt listing
every issue, call the provider; on failure return the empty list, otherwise
the two fixed safe remediations followed by the AI-titled one (the leading
50 characters of the response content). -/
def generateRemediations (gen : String → ai.Options → Except String ai.Response)
    (issues : List Issue) (resourceName ns : String) : List Remediation :=
  match gen
      ("Kubernetes diagnostics for resource: " ++ resourceName ++ "\n\nDetected issues:\n" ++
        issues.foldl (fun s i =>
          s ++ "- [" ++ i.severity ++ "] " ++ i.type ++ ": " ++ i.description ++ "\n") "" ++
        "\nProvide 3 remediation steps with kubectl commands.")
      ai.DefaultOptions with
  | Except.error _ => []
  | Except.ok response =>
    [{ title := "Check pod logs"
       description := "Inspect pod logs for error messages"
       command := "kubectl logs " ++ resourceName ++ " -n " ++ ns
       confidence := "High", safe := true },
     { title := "Describe pod"
       description := "Get detailed pod information and events"
       command := "kubectl describe pod " ++ resourceName ++ " -n " ++ ns
       confidence := "High", safe := true },
     { title := ⟨response.content.data.take 50⟩ ++ "..."
       description := "AI-suggested remediation"
       command := "# See AI response for details"
       confidence := "Medium", safe := true }]

/-- The waiting-state check of the diagnosePod container loop: classify the
waiting reason into an issue type, a severity, and a deduction. -/
def waitUpd (podName : String) (acc : List Issue × Int) (cs : ContainerStatus) :
    List Issue × Int :=
  match cs.state.waiting with
  | none => acc
  | some w =>
    if w.reason = "CrashLoopBackOff" then
      (acc.1 ++ [{ severity := SeverityCritical, type := "CrashLoopBackOff"
                   resource := podName ++ "/" ++ cs.name
                   description := "Container " ++ cs.name ++ ": " ++ w.reason ++
                     " - " ++ w.message }], acc.2 - 40)
    else if w.reason = "ImagePullBackOff" || w.reason = "ErrImagePull" then
      (acc.1 ++ [{ severity := SeverityHigh, type := "ImagePullBackOff"
                   resource := podName ++ "/" ++ cs.name
                   description := "Container " ++ cs.name ++ ": " ++ w.reason ++
                     " - " ++ w.message }], acc.2 - 35)
    else
      (acc.1 ++ [{ severity := SeverityMedium, type := w.reason
                   resource := podName ++ "/" ++ cs.name
                   description := "Container " ++ cs.name ++ ": " ++ w.reason ++
                     " - " ++ w.message }], acc.2 - 20)

/-- One iteration of the diagnosePod container loop: the waiting-state check
followed by the independent restart-count check (restarts above five add a
second medium CrashLoopBackOff issue and deduct 15). -/
def podContainerStep (podName : String) (acc : List Issue × Int)
    (cs : ContainerStatus) : List Issue × Int :=
  if cs.restartCount > 5 then
    ((waitUpd podName acc cs).1 ++
      [{ severity := SeverityMedium, type := "CrashLoopBackOff"
         resource := podName ++ "/" ++ cs.name
         description := "Container has restarted " ++ toString cs.restartCount ++
           " times" }],
      (waitUpd podName acc cs).2 - 15)
  else waitUpd podName acc cs

/-- The phase check of diagnosePod: the issues and score before the
container loop. The score starts at 100 and a non-Running phase appends a
high issue typed by the phase and deducts 30. -/
def phaseCheck (podName : String) (pod : PodStatus) : List Issue × Int :=
  if pod.phase != "Running" then
    ([{ severity := SeverityHigh, type := pod.phase, resource := podName
        description := "Pod is in " ++ pod.phase ++ " phase" }], (100 : Int) - 30)
  else ([], 100)

/-- The issue list and running score of diagnosePod after the phase check
and the container loop. -/
def podScan (podName : String) (pod : PodStatus) : List Issue × Int :=
  pod.containerStatuses.foldl (podContainerStep podName) (phaseCheck podName pod)

/-- diagnosePod of the diagnose package, given the fetched pod status: run
the phase check and the container loop, and request remediations when any
issue was produced. No floor is applied to the score. -/
def diagnosePod (gen : String → ai.Options → Except String ai.Response)
    (ns podName : String) (pod : PodStatus) : Report :=
  { summary := "Diagnostics for pod: " ++ podName
    issues := (podScan podName pod).1
    remediations :=
      if 0 < (podScan podName pod).1.length then
        generateRemediations gen (podScan podName pod).1 podName ns
      else []
    healthScore := (podScan podName pod).2 }

/-- One iteration of the diagnoseAllPods loop: a problem pod (phase not
Running, or not ready, or restarts above three) increments the counter and
appends one issue, medium by default, escalated to high above ten restarts. -/
def allPodsStep (acc : Nat × List Issue) (pod : PodInfo) : Nat × List Issue :=
  if pod.phase != "Running" || !pod.ready || decide (pod.restarts > 3) then
    (acc.1 + 1, acc.2 ++
      [{ severity := if decide (pod.restarts > 10) then SeverityHigh else SeverityMedium
         type := ""
         resource := "pod/" ++ pod.name
         description := "Pod " ++ pod.name ++ ": Phase=" ++ pod.phase ++ ", Ready=" ++
           toString pod.ready ++ ", Restarts=" ++ toString pod.restarts }])
  else acc

/-- diagnoseAllPods of the diagnose package: run the loop, then set the
score to 100 minus ten per problem pod, floored at zero (the score stays at
its initial 100 when no pod is a problem), and format the summary from the
final report fields. -/
def diagnoseAllPods (pods : List PodInfo) : Report :=
  { summary := "Found " ++ toString (pods.foldl allPodsStep (0, [])).2.length ++
      " issue(s) across " ++ toString pods.length ++ " pods. Health score: " ++
      toString (if 0 < (pods.foldl allPodsStep (0, [])).1 then
        (if (100 : Int) - ((pods.foldl allPodsStep (0, [])).1 : Int) * 10 < 0 then 0
         else (100 : Int) - ((pods.foldl allPodsStep (0, [])).1 : Int) * 10)
       else 100) ++ "/100"
    issues := (pods.foldl allPodsStep (0, [])).2
    remediations := []
    healthScore :=
      if 0 < (pods.foldl allPodsStep (0, [])).1 then
        (if (100 : Int) - ((pods.foldl allPodsStep (0, [])).1 : Int) * 10 < 0 then 0
         else (100 : Int) - ((pods.foldl allPodsStep (0, [])).1 : Int) * 10)
      else 100 }

/-- The problem-pod test as the specification states it: phase differs from
Running, or the pod is not ready, or its restarts exceed three. -/
def specProblemPod (pod : PodInfo) : Bool :=
  pod.phase != "Running" || !pod.ready || decide (pod.restarts > 3)

/-- The issue the specification predicts for one problem pod: medium
severity escalated to high above ten restarts. -/
def specIssue (pod : PodInfo) : Issue :=
  { severity := if decide (pod.restarts > 10) then SeverityHigh else SeverityMedium
    type := ""
    resource := "pod/" ++ pod.name
    description := "Pod " ++ pod.name ++ ": Phase=" ++ pod.phase ++ ", Ready=" ++
      toString pod.ready ++ ", Restarts=" ++ toString pod.restarts }

/-- The mock provider as wired by the engine constructor. -/
def mockGen : String → ai.Options → Except String ai.Response := ai.MockGenerate

/-- A pod whose deductions exceed 100: non-Running phase (30), two crash
looping containers (40 each) that also exceed five restarts (15 each). -/
def overdrawnPod : PodStatus :=
  { phase := "Pending"
    containerStatuses :=
      [{ name := "a"
         state := { waiting := some { reason := "CrashLoopBackOff", message := "boom" } }
         restartCount := 6 },
       { name := "b"
         state := { waiting := some { reason := "CrashLoopBackOff", message := "boom" } }
         restartCount := 6 }] }

/-- Ten pods of which exactly three are problem pods, none above ten
restarts. -/
def tenPods : List PodInfo :=
  [{ name := "p0", phase := "Running", ready := true, restarts := 0 },
   { name := "p1", phase := "Running", ready := true, restarts := 1 },
   { name := "p2", phase := "Pending", ready := false, restarts := 0 },
   { name := "p3", phase := "Running", ready := true, restarts := 0 },
   { name := "p4", phase := "Running", ready := false, restarts := 5 },
   { name := "p5", phase := "Running", ready := true, restarts := 2 },
   { name := "p6", phase := "Running", ready := true, restarts := 4 },
   { name := "p7", phase := "Running", ready := true, restarts := 0 },
   { name := "p8", phase := "Running", ready := true, restarts := 3 },
   { name := "p9", phase := "Running", ready := true, restarts := 0 }]

end diagnose

/-- The waiting-state check only ever deducts from the running score. -/
theorem waitUpd_le (pn : String) (acc : List diagnose.Issue × Int)
    (cs : diagnose.ContainerStatus) : (diagnose.waitUpd pn acc cs).2 ≤ acc.2 := by
  unfold diagnose.waitUpd
  rcases h : cs.state.waiting with _ | w
  · exact le_refl _
  · dsimp only
    split_ifs <;> simp

/-- One container-loop iteration only ever deducts from the running score. -/
theorem podContainerStep_le (pn : String) (acc : List diagnose.Issue × Int)
    (cs : diagnose.ContainerStatus) :
    (diagnose.podContainerStep pn acc cs).2 ≤ acc.2 := by
  unfold diagnose.podContainerStep
  split_ifs with h
  · have := waitUpd_le pn acc cs
    simp
    omega
  · exact waitUpd_le pn acc cs

/-- The container loop only ever deducts from the running score. -/
theorem podScanFold_le (pn : String) (l : List diagnose.ContainerStatus) :
    ∀ acc : List diagnose.Issue × Int,
      (l.foldl (diagnose.podContainerStep pn) acc).2 ≤ acc.2 := by
  induction l with
  | nil => intro acc; exact le_refl _
  | cons c cs ih =>
    intro acc
    exact le_trans (ih (diagnose.podContainerStep pn acc c)) (podContainerStep_le pn acc c)

/-- C1 amended: every full-namespace scan report has a health score in
[0,100]; a single-pod report has a health score at most 100, but no lower
floor is applied on that path, so it can be negative. -/
theorem healthScore_amended_bounds (pods : List diagnose.PodInfo)
    (gen : String → ai.Options → Except String ai.Response)
    (ns podName : String) (pod : diagnose.PodStatus) :
    (0 ≤ (diagnose.diagnoseAllPods pods).healthScore ∧
      (diagnose.diagnoseAllPods pods).healthScore ≤ 100) ∧
    (diagnose.diagnosePod gen ns podName pod).healthScore ≤ 100 := by
  constructor
  · unfold diagnose.diagnoseAllPods
    dsimp only
    constructor <;> split_ifs <;> omega
  · show (diagnose.podScan podName pod).2 ≤ 100
    unfold diagnose.podScan
    refine le_trans (podScanFold_le podName pod.containerStatuses _) ?_
    unfold diagnose.phaseCheck
    split_ifs <;> simp

/-- C1 counterexample: a single-pod report whose deductions exceed 100 ends
with a negative health score, outside [0,100]. -/
theorem diagnosePod_negative_score :
    (diagnose.diagnosePod diagnose.mockGen "default" "mypod"
      diagnose.overdrawnPod).healthScore = -40 := by decide

/-- The diagnoseAllPods loop body, phrased with the specification-side
problem-pod test and issue. -/
theorem allPodsStep_eq (acc : Nat × List diagnose.Issue) (pod : diagnose.PodInfo) :
    diagnose.allPodsStep acc pod =
      if diagnose.specProblemPod pod then (acc.1 + 1, acc.2 ++ [diagnose.specIssue pod])
      else acc := rfl

/-- The diagnoseAllPods loop counts and reports exactly the problem pods,
in order. -/
theorem allPods_fold (pods : List diagnose.PodInfo) :
    ∀ (n : Nat) (acc : List diagnose.Issue),
      pods.foldl diagnose.allPodsStep (n, acc) =
        (n + (pods.filter diagnose.specProblemPod).length,
         acc ++ (pods.filter diagnose.specProblemPod).map diagnose.specIssue) := by
  induction pods with
  | nil => intro n acc; simp
  | cons p ps ih =>
    intro n acc
    rw [List.foldl_cons, allPodsStep_eq]
    cases h : diagnose.specProblemPod p
    · simp [h, ih, List.filter_cons]
    · simp [h, ih, List.filter_cons, List.append_assoc]
      omega

/-- C8: a pod is a problem pod exactly when its phase is not Running, or it
is not ready, or its restarts exceed three; the report carries one issue
per problem pod (medium, high above ten restarts) and the health score is
100 minus ten per problem pod, floored at zero; in particular ten pods with
three problem pods, none above ten restarts, give score 70 and exactly
three medium issues. -/
theorem diagnoseAllPods_spec (pods : List diagnose.PodInfo) :
    (diagnose.diagnoseAllPods pods).issues =
      (pods.filter diagnose.specProblemPod).map diagnose.specIssue ∧
    (diagnose.diagnoseAllPods pods).healthScore =
      max 0 (100 - 10 * ((pods.filter diagnose.specProblemPod).length : Int)) ∧
    (diagnose.diagnoseAllPods diagnose.tenPods).healthScore = 70 ∧
    (diagnose.diagnoseAllPods diagnose.tenPods).issues.length = 3 ∧
    ((diagnose.diagnoseAllPods diagnose.tenPods).issues.all
      (fun i => i.severity == diagnose.SeverityMedium)) = true := by
  refine ⟨?_, ?_, by decide, by decide, by decide⟩
  · show (pods.foldl diagnose.allPodsStep (0, [])).2 = _
    rw [allPods_fold]
    simp
  · show (if 0 < (pods.foldl diagnose.allPodsStep (0, [])).1 then _ else _) = _
    rw [allPods_fold, max_def]
    split_ifs <;> omega

namespace plugins

/-- The Plugin capability interface: name, version, description, and an
analyze operation that may fail. The resource and issue payloads are opaque
to the manager, so they are type parameters. -/
structure Plugin (ρ ι : Type) where
  name : String
  version : String
  description : String
  analyze : ρ → Except String (List ι)

/-- One iteration of the RunAnalysis loop: a failed analyze call is logged
and skipped, a successful one has its issues appended. -/
def analyzeStep {ρ ι : Type} (resource : ρ) (acc : List ι) (p : Plugin ρ ι) : List ι :=
  match p.analyze resource with
  | Except.error _ => acc
  | Except.ok issues => acc ++ issues

/-- RunAnalysis of the plugin manager: fold the loop over the registered
plugins starting from the empty list; the error return is always nil. The
backing map is modelled as a list in iteration order. -/
def RunAnalysis {ρ ι : Type} (registered : List (Plugin ρ ι)) (resource : ρ) :
    List ι × Option String :=
  (registered.foldl (analyzeStep resource) [], none)

/-- The issue lists of the plugins whose analyze call succeeds, in
registration-iteration order. -/
def successIssues {ρ ι : Type} (registered : List (Plugin ρ ι)) (resource : ρ) :
    List (List ι) :=
  registered.filterMap (fun p =>
    match p.analyze resource with
    | Except.ok issues => some issues
    | Except.error _ => none)

end plugins

/-- The RunAnalysis loop concatenates the successful issue lists after any
accumulator. -/
theorem analyzeStep_fold {ρ ι : Type} (r : ρ) (ps : List (plugins.Plugin ρ ι)) :
    ∀ acc : List ι,
      ps.foldl (plugins.analyzeStep r) acc = acc ++ (plugins.successIssues ps r).flatten := by
  induction ps with
  | nil => intro acc; simp [plugins.successIssues]
  | cons p ps ih =>
    intro acc
    rcases h : p.analyze r with e | issues <;>
      simp [plugins.analyzeStep, plugins.successIssues, List.filterMap_cons, h, ih]

/-- C9: RunAnalysis returns exactly the concatenation of the issue lists of
the plugins whose analyze call succeeds, and itself never fails; a failing
plugin is skipped without disturbing the others. -/
theorem runAnalysis_concat {ρ ι : Type} (registered : List (plugins.Plugin ρ ι))
    (resource : ρ) :
    plugins.RunAnalysis registered resource =
      ((plugins.successIssues registered resource).flatten, none) := by
  unfold plugins.RunAnalysis
  rw [analyzeStep_fold]
  simp

/-- C10: the mock provider is total and deterministic: the result does not
depend on the options, it always succeeds with the mock content, the fixed
model name, a token count of the content byte length divided by four and
finish reason stop, and plan generation through the mock provider never
fails at the gateway step. -/
theorem mockGenerate_total (prompt : String) (o1 o2 : ai.Options) (d : Bool)
    (ns q : String) :
    ai.MockGenerate prompt o1 = ai.MockGenerate prompt o2 ∧
    ai.MockGenerate prompt o1 = Except.ok
      { content := ai.generateMockResponse prompt
        model := "mock-v1"
        tokensUsed := (ai.generateMockResponse prompt).utf8ByteSize / 4
        finishReason := "stop" } ∧
    ∃ p, plan.Generate ai.MockGenerate d ns q = Except.ok p :=
  ⟨rfl, rfl, ⟨_, rfl⟩⟩
